import Mathlib

/-!
Verification of the watchdog-proto protocol package (src/protocol/message.go).

The package defines a JSON message envelope (Message), a fixed set of payload
record types, and constructor/extraction helpers built on encoding/json.
We embed the payload bytes at the JSON-value level: a raw payload byte string
is either absent (a nil json.RawMessage), some byte string that is not valid
JSON, or a valid JSON document given by its parsed value.  Marshalling of the
fixed record types follows the struct tags in the source, including omitempty;
unmarshalling follows the documented semantics of encoding/json for struct
destinations: the whole input is validated first (so a syntax error changes
nothing), a JSON null is a no-op, object keys are matched to struct fields
case-insensitively under Unicode simple case folding (EqualFold, which beyond
ASCII case also folds U+212A KELVIN SIGN to k and U+017F LONG S to s, the only
runes outside ASCII fold-equal to the all-ASCII struct-tag keys used here),
unknown keys are ignored, a value of the wrong type for a
field is skipped and the earliest such error is reported after the remaining
fields are decoded, and fields absent from the object keep the destination
value they had.
-/

/-- A JSON value, the parse of a valid JSON byte string. -/
inductive Json where
  | null
  | bool (b : Bool)
  | num (n : Int)
  | str (s : String)
  | arr (elems : List Json)
  | obj (fields : List (String × Json))
deriving Repr, BEq

/-- Errors reported by the embedded encoding/json operations. -/
inductive JsonError where
  | syntaxError (bytes : String)
  | typeMismatch (want : String)
  | unsupportedType (desc : String)
deriving Repr, DecidableEq

/-- Case folding of one character onto the representative used when comparing
against an all-ASCII lower-case struct-tag key: ASCII upper-case letters fold
to lower case, and the only two characters outside ASCII whose Unicode
simple-fold orbit meets ASCII fold to their ASCII representative - U+212A
KELVIN SIGN to k and U+017F LATIN SMALL LETTER LONG S to s. Every other
character is its own representative, since no other rune is fold-equal to an
ASCII character under Unicode simple folding. -/
def foldChar (c : Char) : Char :=
  if 65 ≤ c.toNat ∧ c.toNat ≤ 90 then Char.ofNat (c.toNat + 32)
  else if c.toNat = 8490 then 'k'
  else if c.toNat = 383 then 's'
  else c

/-- Character-wise fold of a string. The struct-tag keys of this package are
all ASCII lower case, and for any wire key k and any such key f, foldName k
equals f exactly when Go's EqualFold(k, f) holds - the rune-wise Unicode
simple-fold comparison that encoding/json's field matching is specified to
coincide with. -/
def foldName (s : String) : String :=
  String.mk (s.data.map foldChar)

/-- Go matches a JSON object key to a struct field preferring an exact match
but also accepting one equal under Unicode simple case folding (EqualFold). -/
def keyMatches (k field : String) : Bool :=
  k == field || foldName k == foldName field

/-- The fold agrees with EqualFold on the non-ASCII runes whose fold orbits
meet ASCII: a wire key spelled with U+212A KELVIN SIGN in place of k, or with
U+017F LONG S in place of s, matches the corresponding struct-tag key, exactly
as in encoding/json, while an unrelated key still does not match. -/
theorem keyMatches_unicode_fold :
    keyMatches "api_Key" "api_key" = true
  ∧ keyMatches "ſtatus" "status" = true
  ∧ keyMatches "Monitor_ID" "monitor_id" = true
  ∧ keyMatches "extra" "api_key" = false := by
  decide

/-- Decoding a JSON value into a string struct field: a JSON string sets the
field, null is a no-op, anything else is a type mismatch that leaves the
field untouched. -/
def decodeString (cur : String) : Json → String × Option JsonError
  | Json.str s => (s, none)
  | Json.null => (cur, none)
  | _ => (cur, some (JsonError.typeMismatch "string"))

/-- Decoding a JSON value into an int struct field. -/
def decodeInt (cur : Int) : Json → Int × Option JsonError
  | Json.num n => (n, none)
  | Json.null => (cur, none)
  | _ => (cur, some (JsonError.typeMismatch "int"))

/-- Decoding a JSON value into a pointer-to-int struct field: null sets the
pointer to nil. -/
def decodeIntPtr (cur : Option Int) : Json → Option Int × Option JsonError
  | Json.num n => (some n, none)
  | Json.null => (none, none)
  | _ => (cur, some (JsonError.typeMismatch "ptr int"))

/-- Keep the earliest error, as encoding/json does. -/
def firstErr (e e2 : Option JsonError) : Option JsonError :=
  match e with
  | some x => some x
  | none => e2

/-- Fold a JSON object field list into a destination value, applying each
key/value pair in order and remembering the earliest error. -/
def foldFields (applyF : α → String → Json → α × Option JsonError) :
    α × Option JsonError → List (String × Json) → α × Option JsonError
  | acc, [] => acc
  | (d, e), (k, v) :: rest =>
      let step := applyF d k v
      foldFields applyF (step.1, firstErr e step.2) rest

/-- encoding/json unmarshalling of a JSON value into a struct destination:
null is a no-op, an object is folded field by field, and any other value is a
type mismatch that leaves the destination untouched. -/
def unmarshalStruct (applyF : α → String → Json → α × Option JsonError)
    (dest : α) : Json → α × Option JsonError
  | Json.null => (dest, none)
  | Json.obj l => foldFields applyF (dest, none) l
  | _ => (dest, some (JsonError.typeMismatch "object"))

/-- AuthPayload is sent by agent to authenticate. -/
structure AuthPayload where
  APIKey : String
  Version : String
deriving Repr, DecidableEq

/-- AuthAckPayload is sent by hub to confirm authentication. -/
structure AuthAckPayload where
  AgentID : String
  AgentName : String
deriving Repr, DecidableEq

/-- AuthErrorPayload is sent by hub when authentication fails. -/
structure AuthErrorPayload where
  Error : String
deriving Repr, DecidableEq

/-- TaskPayload describes a monitoring task for the agent. -/
structure TaskPayload where
  MonitorID : String
  Type_ : String
  Target : String
  Interval : Int
  Timeout : Int
deriving Repr, DecidableEq

/-- HeartbeatPayload is sent by agent with check results; CertExpiryDays is a
nullable pointer field in the source. -/
structure HeartbeatPayload where
  MonitorID : String
  Status : String
  LatencyMs : Int
  ErrorMessage : String
  CertExpiryDays : Option Int
  CertIssuer : String
deriving Repr, DecidableEq

/-- TaskCancelPayload tells the agent to stop monitoring a specific monitor. -/
structure TaskCancelPayload where
  MonitorID : String
deriving Repr, DecidableEq

/-- ErrorPayload is sent when an error occurs. -/
structure ErrorPayload where
  Code : String
  Message : String
deriving Repr, DecidableEq

/-- The zero value of AuthPayload. -/
def AuthPayload.zero : AuthPayload := { APIKey := "", Version := "" }

/-- The zero value of AuthAckPayload. -/
def AuthAckPayload.zero : AuthAckPayload := { AgentID := "", AgentName := "" }

/-- The zero value of AuthErrorPayload. -/
def AuthErrorPayload.zero : AuthErrorPayload := { Error := "" }

/-- The zero value of TaskPayload. -/
def TaskPayload.zero : TaskPayload :=
  { MonitorID := "", Type_ := "", Target := "", Interval := 0, Timeout := 0 }

/-- The zero value of HeartbeatPayload. -/
def HeartbeatPayload.zero : HeartbeatPayload :=
  { MonitorID := "", Status := "", LatencyMs := 0, ErrorMessage := "",
    CertExpiryDays := none, CertIssuer := "" }

/-- The zero value of TaskCancelPayload. -/
def TaskCancelPayload.zero : TaskCancelPayload := { MonitorID := "" }

/-- The zero value of ErrorPayload. -/
def ErrorPayload.zero : ErrorPayload := { Code := "", Message := "" }

/-- json.Marshal of AuthPayload: api_key, then version with omitempty. -/
def AuthPayload.marshal (p : AuthPayload) : Json :=
  Json.obj ([("api_key", Json.str p.APIKey)]
    ++ (if p.Version = "" then [] else [("version", Json.str p.Version)]))

/-- json.Marshal of AuthAckPayload. -/
def AuthAckPayload.marshal (p : AuthAckPayload) : Json :=
  Json.obj [("agent_id", Json.str p.AgentID), ("agent_name", Json.str p.AgentName)]

/-- json.Marshal of AuthErrorPayload. -/
def AuthErrorPayload.marshal (p : AuthErrorPayload) : Json :=
  Json.obj [("error", Json.str p.Error)]

/-- json.Marshal of TaskPayload: no omitempty tags. -/
def TaskPayload.marshal (p : TaskPayload) : Json :=
  Json.obj [("monitor_id", Json.str p.MonitorID), ("type", Json.str p.Type_),
    ("target", Json.str p.Target), ("interval", Json.num p.Interval),
    ("timeout", Json.num p.Timeout)]

/-- json.Marshal of HeartbeatPayload: latency_ms, error_message,
cert_expiry_days and cert_issuer carry omitempty. -/
def HeartbeatPayload.marshal (p : HeartbeatPayload) : Json :=
  Json.obj ([("monitor_id", Json.str p.MonitorID), ("status", Json.str p.Status)]
    ++ (if p.LatencyMs = 0 then [] else [("latency_ms", Json.num p.LatencyMs)])
    ++ (if p.ErrorMessage = "" then [] else [("error_message", Json.str p.ErrorMessage)])
    ++ (match p.CertExpiryDays with
        | none => []
        | some n => [("cert_expiry_days", Json.num n)])
    ++ (if p.CertIssuer = "" then [] else [("cert_issuer", Json.str p.CertIssuer)]))

/-- json.Marshal of TaskCancelPayload. -/
def TaskCancelPayload.marshal (p : TaskCancelPayload) : Json :=
  Json.obj [("monitor_id", Json.str p.MonitorID)]

/-- json.Marshal of ErrorPayload. -/
def ErrorPayload.marshal (p : ErrorPayload) : Json :=
  Json.obj [("code", Json.str p.Code), ("message", Json.str p.Message)]

/-- One object field applied to an AuthPayload destination. -/
def AuthPayload.applyField (d : AuthPayload) (k : String) (v : Json) :
    AuthPayload × Option JsonError :=
  if keyMatches k "api_key" then
    let r := decodeString d.APIKey v
    ({ d with APIKey := r.1 }, r.2)
  else if keyMatches k "version" then
    let r := decodeString d.Version v
    ({ d with Version := r.1 }, r.2)
  else (d, none)

/-- One object field applied to an AuthAckPayload destination. -/
def AuthAckPayload.applyField (d : AuthAckPayload) (k : String) (v : Json) :
    AuthAckPayload × Option JsonError :=
  if keyMatches k "agent_id" then
    let r := decodeString d.AgentID v
    ({ d with AgentID := r.1 }, r.2)
  else if keyMatches k "agent_name" then
    let r := decodeString d.AgentName v
    ({ d with AgentName := r.1 }, r.2)
  else (d, none)

/-- One object field applied to an AuthErrorPayload destination. -/
def AuthErrorPayload.applyField (d : AuthErrorPayload) (k : String) (v : Json) :
    AuthErrorPayload × Option JsonError :=
  if keyMatches k "error" then
    let r := decodeString d.Error v
    ({ d with Error := r.1 }, r.2)
  else (d, none)

/-- One object field applied to a TaskPayload destination. -/
def TaskPayload.applyField (d : TaskPayload) (k : String) (v : Json) :
    TaskPayload × Option JsonError :=
  if keyMatches k "monitor_id" then
    let r := decodeString d.MonitorID v
    ({ d with MonitorID := r.1 }, r.2)
  else if keyMatches k "type" then
    let r := decodeString d.Type_ v
    ({ d with Type_ := r.1 }, r.2)
  else if keyMatches k "target" then
    let r := decodeString d.Target v
    ({ d with Target := r.1 }, r.2)
  else if keyMatches k "interval" then
    let r := decodeInt d.Interval v
    ({ d with Interval := r.1 }, r.2)
  else if keyMatches k "timeout" then
    let r := decodeInt d.Timeout v
    ({ d with Timeout := r.1 }, r.2)
  else (d, none)

/-- One object field applied to a HeartbeatPayload destination. -/
def HeartbeatPayload.applyField (d : HeartbeatPayload) (k : String) (v : Json) :
    HeartbeatPayload × Option JsonError :=
  if keyMatches k "monitor_id" then
    let r := decodeString d.MonitorID v
    ({ d with MonitorID := r.1 }, r.2)
  else if keyMatches k "status" then
    let r := decodeString d.Status v
    ({ d with Status := r.1 }, r.2)
  else if keyMatches k "latency_ms" then
    let r := decodeInt d.LatencyMs v
    ({ d with LatencyMs := r.1 }, r.2)
  else if keyMatches k "error_message" then
    let r := decodeString d.ErrorMessage v
    ({ d with ErrorMessage := r.1 }, r.2)
  else if keyMatches k "cert_expiry_days" then
    let r := decodeIntPtr d.CertExpiryDays v
    ({ d with CertExpiryDays := r.1 }, r.2)
  else if keyMatches k "cert_issuer" then
    let r := decodeString d.CertIssuer v
    ({ d with CertIssuer := r.1 }, r.2)
  else (d, none)

/-- One object field applied to a TaskCancelPayload destination. -/
def TaskCancelPayload.applyField (d : TaskCancelPayload) (k : String) (v : Json) :
    TaskCancelPayload × Option JsonError :=
  if keyMatches k "monitor_id" then
    let r := decodeString d.MonitorID v
    ({ d with MonitorID := r.1 }, r.2)
  else (d, none)

/-- One object field applied to an ErrorPayload destination. -/
def ErrorPayload.applyField (d : ErrorPayload) (k : String) (v : Json) :
    ErrorPayload × Option JsonError :=
  if keyMatches k "code" then
    let r := decodeString d.Code v
    ({ d with Code := r.1 }, r.2)
  else if keyMatches k "message" then
    let r := decodeString d.Message v
    ({ d with Message := r.1 }, r.2)
  else (d, none)

/-- json.Unmarshal into an AuthPayload destination. -/
def AuthPayload.unmarshal (d : AuthPayload) (j : Json) : AuthPayload × Option JsonError :=
  unmarshalStruct AuthPayload.applyField d j

/-- json.Unmarshal into an AuthAckPayload destination. -/
def AuthAckPayload.unmarshal (d : AuthAckPayload) (j : Json) : AuthAckPayload × Option JsonError :=
  unmarshalStruct AuthAckPayload.applyField d j

/-- json.Unmarshal into an AuthErrorPayload destination. -/
def AuthErrorPayload.unmarshal (d : AuthErrorPayload) (j : Json) :
    AuthErrorPayload × Option JsonError :=
  unmarshalStruct AuthErrorPayload.applyField d j

/-- json.Unmarshal into a TaskPayload destination. -/
def TaskPayload.unmarshal (d : TaskPayload) (j : Json) : TaskPayload × Option JsonError :=
  unmarshalStruct TaskPayload.applyField d j

/-- json.Unmarshal into a HeartbeatPayload destination. -/
def HeartbeatPayload.unmarshal (d : HeartbeatPayload) (j : Json) :
    HeartbeatPayload × Option JsonError :=
  unmarshalStruct HeartbeatPayload.applyField d j

/-- json.Unmarshal into a TaskCancelPayload destination. -/
def TaskCancelPayload.unmarshal (d : TaskCancelPayload) (j : Json) :
    TaskCancelPayload × Option JsonError :=
  unmarshalStruct TaskCancelPayload.applyField d j

/-- json.Unmarshal into an ErrorPayload destination. -/
def ErrorPayload.unmarshal (d : ErrorPayload) (j : Json) : ErrorPayload × Option JsonError :=
  unmarshalStruct ErrorPayload.applyField d j

/-- Message type tag for auth. -/
def MsgTypeAuth : String := "auth"

/-- Message type tag for auth_ack. -/
def MsgTypeAuthAck : String := "auth_ack"

/-- Message type tag for auth_error. -/
def MsgTypeAuthError : String := "auth_error"

/-- Message type tag for task. -/
def MsgTypeTask : String := "task"

/-- Message type tag for heartbeat. -/
def MsgTypeHeartbeat : String := "heartbeat"

/-- Message type tag for ping. -/
def MsgTypePing : String := "ping"

/-- Message type tag for pong. -/
def MsgTypePong : String := "pong"

/-- Message type tag for task_cancel. -/
def MsgTypeTaskCancel : String := "task_cancel"

/-- Message type tag for error. -/
def MsgTypeError : String := "error"

/-- The payload byte string carried by an envelope, embedded at the JSON value
level: absent stands for a nil json.RawMessage, invalid for a present byte
string that is not a valid JSON document (the empty byte string among them),
and json for a valid JSON document. -/
inductive RawPayload where
  | absent
  | invalid (bytes : String)
  | json (j : Json)
deriving Repr, BEq

/-- Message represents a WebSocket message envelope; the construction-time
instant is embedded as a natural number of nanoseconds since the epoch, with
zero standing for the zero time.Time value. -/
structure Message where
  Type_ : String
  Payload : RawPayload
  Timestamp : Nat
deriving Repr

/-- The dynamically typed payload argument of NewMessage: one of the fixed
record types of the package, or some other Go value outside them whose
serialization fails (a channel, a function, a cyclic structure). -/
inductive PayloadValue where
  | auth (p : AuthPayload)
  | authAck (p : AuthAckPayload)
  | authError (p : AuthErrorPayload)
  | task (p : TaskPayload)
  | taskCancel (p : TaskCancelPayload)
  | heartbeat (p : HeartbeatPayload)
  | error (p : ErrorPayload)
  | unsupported (desc : String)
deriving Repr

/-- json.Marshal on a dynamically typed payload value. -/
def marshalValue : PayloadValue → Except JsonError Json
  | PayloadValue.auth p => Except.ok p.marshal
  | PayloadValue.authAck p => Except.ok p.marshal
  | PayloadValue.authError p => Except.ok p.marshal
  | PayloadValue.task p => Except.ok p.marshal
  | PayloadValue.taskCancel p => Except.ok p.marshal
  | PayloadValue.heartbeat p => Except.ok p.marshal
  | PayloadValue.error p => Except.ok p.marshal
  | PayloadValue.unsupported d => Except.error (JsonError.unsupportedType d)

/-- NewMessage creates a new message with the current timestamp, passed in
explicitly as the clock reading at the call; a nil payload leaves the raw
payload nil, otherwise the payload is marshalled and a marshalling error is
returned to the caller. -/
def NewMessage (now : Nat) (msgType : String) (payload : Option PayloadValue) :
    Except JsonError Message :=
  match payload with
  | none => Except.ok { Type_ := msgType, Payload := RawPayload.absent, Timestamp := now }
  | some p =>
      match marshalValue p with
      | Except.error e => Except.error e
      | Except.ok j =>
          Except.ok { Type_ := msgType, Payload := RawPayload.json j, Timestamp := now }

/-- MustNewMessage creates a new message and panics on error; the panic is
embedded as the none case. -/
def MustNewMessage (now : Nat) (msgType : String) (payload : Option PayloadValue) :
    Option Message :=
  (NewMessage now msgType payload).toOption

/-- ParsePayload unmarshals the payload into the provided destination, whose
type fixes the unmarshalling function; a nil raw payload is a no-op returning
a nil error. The destination is updated in place in the source, so the result
carries both the final destination value and the returned error. -/
def Message.ParsePayload (m : Message)
    (unmarshal : α → Json → α × Option JsonError) (dest : α) : α × Option JsonError :=
  match m.Payload with
  | RawPayload.absent => (dest, none)
  | RawPayload.invalid bytes => (dest, some (JsonError.syntaxError bytes))
  | RawPayload.json j => unmarshal dest j

/-- NewAuthMessage creates an authentication message. -/
def NewAuthMessage (now : Nat) (apiKey version : String) : Option Message :=
  MustNewMessage now MsgTypeAuth
    (some (PayloadValue.auth { APIKey := apiKey, Version := version }))

/-- NewAuthAckMessage creates an authentication acknowledgment message. -/
def NewAuthAckMessage (now : Nat) (agentID agentName : String) : Option Message :=
  MustNewMessage now MsgTypeAuthAck
    (some (PayloadValue.authAck { AgentID := agentID, AgentName := agentName }))

/-- NewAuthErrorMessage creates an authentication error message. -/
def NewAuthErrorMessage (now : Nat) (err : String) : Option Message :=
  MustNewMessage now MsgTypeAuthError
    (some (PayloadValue.authError { Error := err }))

/-- NewTaskMessage creates a task assignment message. -/
def NewTaskMessage (now : Nat) (monitorID monitorType target : String)
    (interval timeout : Int) : Option Message :=
  MustNewMessage now MsgTypeTask (some (PayloadValue.task
    { MonitorID := monitorID, Type_ := monitorType, Target := target,
      Interval := interval, Timeout := timeout }))

/-- NewTaskCancelMessage creates a task cancellation message. -/
def NewTaskCancelMessage (now : Nat) (monitorID : String) : Option Message :=
  MustNewMessage now MsgTypeTaskCancel
    (some (PayloadValue.taskCancel { MonitorID := monitorID }))

/-- NewHeartbeatMessage creates a heartbeat message; the certificate fields of
HeartbeatPayload are left at their zero values. -/
def NewHeartbeatMessage (now : Nat) (monitorID status : String)
    (latencyMs : Int) (errorMsg : String) : Option Message :=
  MustNewMessage now MsgTypeHeartbeat (some (PayloadValue.heartbeat
    { MonitorID := monitorID, Status := status, LatencyMs := latencyMs,
      ErrorMessage := errorMsg, CertExpiryDays := none, CertIssuer := "" }))

/-- NewPingMessage creates a ping message. -/
def NewPingMessage (now : Nat) : Option Message :=
  MustNewMessage now MsgTypePing none

/-- NewPongMessage creates a pong message. -/
def NewPongMessage (now : Nat) : Option Message :=
  MustNewMessage now MsgTypePong none

/-- NewErrorMessage creates an error message. -/
def NewErrorMessage (now : Nat) (code message : String) : Option Message :=
  MustNewMessage now MsgTypeError
    (some (PayloadValue.error { Code := code, Message := message }))

/-- The top-level keys of a JSON object; empty for non-objects. -/
def jsonKeys : Json → List String
  | Json.obj l => l.map Prod.fst
  | _ => []

theorem firstErr_none (e : Option JsonError) : firstErr e none = e := by
  cases e <;> rfl

theorem roundtrip_auth (p : AuthPayload) :
    AuthPayload.unmarshal AuthPayload.zero p.marshal = (p, none) := by
  cases p with
  | mk key ver =>
    by_cases hv : ver = "" <;>
      simp +decide [AuthPayload.marshal, AuthPayload.unmarshal, unmarshalStruct,
        foldFields, AuthPayload.applyField, decodeString, firstErr, AuthPayload.zero, hv]

theorem roundtrip_authAck (p : AuthAckPayload) :
    AuthAckPayload.unmarshal AuthAckPayload.zero p.marshal = (p, none) := by
  cases p with
  | mk aid aname =>
    simp +decide [AuthAckPayload.marshal, AuthAckPayload.unmarshal, unmarshalStruct,
      foldFields, AuthAckPayload.applyField, decodeString, firstErr, AuthAckPayload.zero]

theorem roundtrip_authError (p : AuthErrorPayload) :
    AuthErrorPayload.unmarshal AuthErrorPayload.zero p.marshal = (p, none) := by
  cases p with
  | mk err =>
    simp +decide [AuthErrorPayload.marshal, AuthErrorPayload.unmarshal, unmarshalStruct,
      foldFields, AuthErrorPayload.applyField, decodeString, firstErr, AuthErrorPayload.zero]

theorem roundtrip_task (p : TaskPayload) :
    TaskPayload.unmarshal TaskPayload.zero p.marshal = (p, none) := by
  cases p with
  | mk mid ty tgt iv tmo =>
    simp +decide [TaskPayload.marshal, TaskPayload.unmarshal, unmarshalStruct,
      foldFields, TaskPayload.applyField, decodeString, decodeInt, firstErr, TaskPayload.zero]

theorem roundtrip_heartbeat (p : HeartbeatPayload) :
    HeartbeatPayload.unmarshal HeartbeatPayload.zero p.marshal = (p, none) := by
  cases p with
  | mk mid st lat em ced ci =>
    by_cases h1 : lat = 0 <;> by_cases h2 : em = "" <;> cases ced <;> by_cases h3 : ci = "" <;>
      simp +decide [HeartbeatPayload.marshal, HeartbeatPayload.unmarshal, unmarshalStruct,
        foldFields, HeartbeatPayload.applyField, decodeString, decodeInt, decodeIntPtr,
        firstErr, HeartbeatPayload.zero, h1, h2, h3]

theorem roundtrip_taskCancel (p : TaskCancelPayload) :
    TaskCancelPayload.unmarshal TaskCancelPayload.zero p.marshal = (p, none) := by
  cases p with
  | mk mid =>
    simp +decide [TaskCancelPayload.marshal, TaskCancelPayload.unmarshal, unmarshalStruct,
      foldFields, TaskCancelPayload.applyField, decodeString, firstErr, TaskCancelPayload.zero]

theorem roundtrip_error (p : ErrorPayload) :
    ErrorPayload.unmarshal ErrorPayload.zero p.marshal = (p, none) := by
  cases p with
  | mk code msg =>
    simp +decide [ErrorPayload.marshal, ErrorPayload.unmarshal, unmarshalStruct,
      foldFields, ErrorPayload.applyField, decodeString, firstErr, ErrorPayload.zero]

/-- C1: for every payload variant type and every instance p, constructing an
envelope with NewMessage and then extracting the payload with ParsePayload
into a fresh zero-valued destination of the same type succeeds and yields a
value equal to p in all fields. -/
theorem construct_extract_roundtrip :
    (∀ (now : Nat) (tag : String) (p : AuthPayload),
      (NewMessage now tag (some (PayloadValue.auth p))).toOption.map
        (fun m => m.ParsePayload AuthPayload.unmarshal AuthPayload.zero) = some (p, none))
  ∧ (∀ (now : Nat) (tag : String) (p : AuthAckPayload),
      (NewMessage now tag (some (PayloadValue.authAck p))).toOption.map
        (fun m => m.ParsePayload AuthAckPayload.unmarshal AuthAckPayload.zero) = some (p, none))
  ∧ (∀ (now : Nat) (tag : String) (p : AuthErrorPayload),
      (NewMessage now tag (some (PayloadValue.authError p))).toOption.map
        (fun m => m.ParsePayload AuthErrorPayload.unmarshal AuthErrorPayload.zero)
        = some (p, none))
  ∧ (∀ (now : Nat) (tag : String) (p : TaskPayload),
      (NewMessage now tag (some (PayloadValue.task p))).toOption.map
        (fun m => m.ParsePayload TaskPayload.unmarshal TaskPayload.zero) = some (p, none))
  ∧ (∀ (now : Nat) (tag : String) (p : TaskCancelPayload),
      (NewMessage now tag (some (PayloadValue.taskCancel p))).toOption.map
        (fun m => m.ParsePayload TaskCancelPayload.unmarshal TaskCancelPayload.zero)
        = some (p, none))
  ∧ (∀ (now : Nat) (tag : String) (p : HeartbeatPayload),
      (NewMessage now tag (some (PayloadValue.heartbeat p))).toOption.map
        (fun m => m.ParsePayload HeartbeatPayload.unmarshal HeartbeatPayload.zero)
        = some (p, none))
  ∧ (∀ (now : Nat) (tag : String) (p : ErrorPayload),
      (NewMessage now tag (some (PayloadValue.error p))).toOption.map
        (fun m => m.ParsePayload ErrorPayload.unmarshal ErrorPayload.zero) = some (p, none)) := by
  refine ⟨?_, ?_, ?_, ?_, ?_, ?_, ?_⟩ <;> intro now tag p <;>
    simp [NewMessage, marshalValue, Except.toOption, Message.ParsePayload,
      roundtrip_auth, roundtrip_authAck, roundtrip_authError, roundtrip_task,
      roundtrip_taskCancel, roundtrip_heartbeat, roundtrip_error]

/-- C3: each named constructor produces an envelope whose Type field equals
the documented tag for its message kind. -/
theorem named_constructor_tag_fidelity :
    (∀ (now : Nat) (k v : String),
      (NewAuthMessage now k v).map Message.Type_ = some MsgTypeAuth)
  ∧ (∀ (now : Nat) (a b : String),
      (NewAuthAckMessage now a b).map Message.Type_ = some MsgTypeAuthAck)
  ∧ (∀ (now : Nat) (e : String),
      (NewAuthErrorMessage now e).map Message.Type_ = some MsgTypeAuthError)
  ∧ (∀ (now : Nat) (a b c : String) (d e : Int),
      (NewTaskMessage now a b c d e).map Message.Type_ = some MsgTypeTask)
  ∧ (∀ (now : Nat) (a : String),
      (NewTaskCancelMessage now a).map Message.Type_ = some MsgTypeTaskCancel)
  ∧ (∀ (now : Nat) (a b : String) (c : Int) (d : String),
      (NewHeartbeatMessage now a b c d).map Message.Type_ = some MsgTypeHeartbeat)
  ∧ (∀ now : Nat, (NewPingMessage now).map Message.Type_ = some MsgTypePing)
  ∧ (∀ now : Nat, (NewPongMessage now).map Message.Type_ = some MsgTypePong)
  ∧ (∀ (now : Nat) (a b : String),
      (NewErrorMessage now a b).map Message.Type_ = some MsgTypeError) := by
  refine ⟨?_, ?_, ?_, ?_, ?_, ?_, ?_, ?_, ?_⟩ <;> intros <;> rfl

/-- C5: the fail-fast construction path MustNewMessage never panics on any
named-constructor input: serialization of the fixed payload record types
always succeeds, so every named constructor returns an actual message rather
than reaching the panic branch. -/
theorem named_constructors_never_panic :
    (∀ (now : Nat) (k v : String), (NewAuthMessage now k v).isSome = true)
  ∧ (∀ (now : Nat) (a b : String), (NewAuthAckMessage now a b).isSome = true)
  ∧ (∀ (now : Nat) (e : String), (NewAuthErrorMessage now e).isSome = true)
  ∧ (∀ (now : Nat) (a b c : String) (d e : Int),
      (NewTaskMessage now a b c d e).isSome = true)
  ∧ (∀ (now : Nat) (a : String), (NewTaskCancelMessage now a).isSome = true)
  ∧ (∀ (now : Nat) (a b : String) (c : Int) (d : String),
      (NewHeartbeatMessage now a b c d).isSome = true)
  ∧ (∀ now : Nat, (NewPingMessage now).isSome = true)
  ∧ (∀ now : Nat, (NewPongMessage now).isSome = true)
  ∧ (∀ (now : Nat) (a b : String), (NewErrorMessage now a b).isSome = true) := by
  refine ⟨?_, ?_, ?_, ?_, ?_, ?_, ?_, ?_, ?_⟩ <;> intros <;> rfl

/-- C6: at the same clock reading, each named constructor produces exactly the
envelope produced by calling NewMessage directly with the corresponding type
tag and the payload record built from the same arguments, and that direct
call returns no error. -/
theorem named_constructor_equals_manual_construction :
    (∀ (now : Nat) (k v : String),
      (NewMessage now MsgTypeAuth
          (some (PayloadValue.auth { APIKey := k, Version := v }))).isOk = true
      ∧ (NewMessage now MsgTypeAuth
          (some (PayloadValue.auth { APIKey := k, Version := v }))).toOption
        = NewAuthMessage now k v)
  ∧ (∀ (now : Nat) (a b : String),
      (NewMessage now MsgTypeAuthAck
          (some (PayloadValue.authAck { AgentID := a, AgentName := b }))).isOk = true
      ∧ (NewMessage now MsgTypeAuthAck
          (some (PayloadValue.authAck { AgentID := a, AgentName := b }))).toOption
        = NewAuthAckMessage now a b)
  ∧ (∀ (now : Nat) (e : String),
      (NewMessage now MsgTypeAuthError
          (some (PayloadValue.authError { Error := e }))).isOk = true
      ∧ (NewMessage now MsgTypeAuthError
          (some (PayloadValue.authError { Error := e }))).toOption
        = NewAuthErrorMessage now e)
  ∧ (∀ (now : Nat) (a b c : String) (d e : Int),
      (NewMessage now MsgTypeTask (some (PayloadValue.task
          { MonitorID := a, Type_ := b, Target := c, Interval := d, Timeout := e }))).isOk
        = true
      ∧ (NewMessage now MsgTypeTask (some (PayloadValue.task
          { MonitorID := a, Type_ := b, Target := c, Interval := d, Timeout := e }))).toOption
        = NewTaskMessage now a b c d e)
  ∧ (∀ (now : Nat) (a : String),
      (NewMessage now MsgTypeTaskCancel
          (some (PayloadValue.taskCancel { MonitorID := a }))).isOk = true
      ∧ (NewMessage now MsgTypeTaskCancel
          (some (PayloadValue.taskCancel { MonitorID := a }))).toOption
        = NewTaskCancelMessage now a)
  ∧ (∀ (now : Nat) (a b : String) (c : Int) (d : String),
      (NewMessage now MsgTypeHeartbeat (some (PayloadValue.heartbeat
          { MonitorID := a, Status := b, LatencyMs := c, ErrorMessage := d,
            CertExpiryDays := none, CertIssuer := "" }))).isOk = true
      ∧ (NewMessage now MsgTypeHeartbeat (some (PayloadValue.heartbeat
          { MonitorID := a, Status := b, LatencyMs := c, ErrorMessage := d,
            CertExpiryDays := none, CertIssuer := "" }))).toOption
        = NewHeartbeatMessage now a b c d)
  ∧ (∀ now : Nat,
      (NewMessage now MsgTypePing none).isOk = true
      ∧ (NewMessage now MsgTypePing none).toOption = NewPingMessage now)
  ∧ (∀ now : Nat,
      (NewMessage now MsgTypePong none).isOk = true
      ∧ (NewMessage now MsgTypePong none).toOption = NewPongMessage now)
  ∧ (∀ (now : Nat) (a b : String),
      (NewMessage now MsgTypeError
          (some (PayloadValue.error { Code := a, Message := b }))).isOk = true
      ∧ (NewMessage now MsgTypeError
          (some (PayloadValue.error { Code := a, Message := b }))).toOption
        = NewErrorMessage now a b) := by
  refine ⟨?_, ?_, ?_, ?_, ?_, ?_, ?_, ?_, ?_⟩ <;> intros <;> exact ⟨rfl, rfl⟩

/-- The heartbeat value of the optional-field-omission scenario: monitor_id m1,
status up, every other field at its zero value. -/
def hbOmission : HeartbeatPayload :=
  { MonitorID := "m1", Status := "up", LatencyMs := 0, ErrorMessage := "",
    CertExpiryDays := none, CertIssuer := "" }

/-- C8: for HeartbeatPayload with MonitorID m1, Status up and all other fields
at their zero value, the JSON produced during envelope construction holds
exactly the keys monitor_id and status: latency_ms, error_message,
cert_expiry_days and cert_issuer are omitted entirely. -/
theorem heartbeat_optional_field_omission :
    HeartbeatPayload.marshal hbOmission
      = Json.obj [("monitor_id", Json.str "m1"), ("status", Json.str "up")]
  ∧ (∀ now : Nat,
      (NewMessage now MsgTypeHeartbeat (some (PayloadValue.heartbeat hbOmission))).toOption.map
          Message.Payload
        = some (RawPayload.json
            (Json.obj [("monitor_id", Json.str "m1"), ("status", Json.str "up")])))
  ∧ (jsonKeys (HeartbeatPayload.marshal hbOmission)).contains "latency_ms" = false
  ∧ (jsonKeys (HeartbeatPayload.marshal hbOmission)).contains "error_message" = false
  ∧ (jsonKeys (HeartbeatPayload.marshal hbOmission)).contains "cert_expiry_days" = false
  ∧ (jsonKeys (HeartbeatPayload.marshal hbOmission)).contains "cert_issuer" = false := by
  refine ⟨rfl, fun now => rfl, ?_, ?_, ?_, ?_⟩ <;> decide

/-- C10: for every input, the heartbeat envelope produced by NewHeartbeatMessage
carries the payload record with CertExpiryDays nil and CertIssuer empty, and
its serialized payload never holds the cert_expiry_days or cert_issuer keys. -/
theorem heartbeat_constructor_cert_fields_zero :
    (∀ (now : Nat) (mid st : String) (lat : Int) (em : String),
      (NewHeartbeatMessage now mid st lat em).map Message.Payload
        = some (RawPayload.json (HeartbeatPayload.marshal
            { MonitorID := mid, Status := st, LatencyMs := lat, ErrorMessage := em,
              CertExpiryDays := none, CertIssuer := "" })))
  ∧ (∀ (mid st : String) (lat : Int) (em : String),
      (jsonKeys (HeartbeatPayload.marshal
          { MonitorID := mid, Status := st, LatencyMs := lat, ErrorMessage := em,
            CertExpiryDays := none, CertIssuer := "" })).contains "cert_expiry_days" = false
      ∧ (jsonKeys (HeartbeatPayload.marshal
          { MonitorID := mid, Status := st, LatencyMs := lat, ErrorMessage := em,
            CertExpiryDays := none, CertIssuer := "" })).contains "cert_issuer" = false) := by
  constructor
  · intro now mid st lat em
    rfl
  · intro mid st lat em
    by_cases h1 : lat = 0 <;> by_cases h2 : em = "" <;>
      constructor <;>
        simp +decide [HeartbeatPayload.marshal, jsonKeys, h1, h2]

/-- NewMessage copies its clock reading into the Timestamp field unchanged. -/
theorem NewMessage_timestamp (now : Nat) (tag : String) (p : Option PayloadValue)
    (m : Message) (h : NewMessage now tag p = Except.ok m) : m.Timestamp = now := by
  cases p with
  | none =>
      simp [NewMessage] at h
      simp [← h]
  | some pv =>
      cases pv <;> simp [NewMessage, marshalValue] at h <;> simp [← h]

/-- C9: every envelope built by NewMessage or a named constructor carries the
construction-time clock reading as its Timestamp, so under a clock that never
reads zero and never decreases, every constructed envelope has a non-zero
Timestamp and envelopes constructed in succession have non-decreasing
Timestamps. -/
theorem constructed_timestamps_nonzero_monotone :
    (∀ (now : Nat) (k v : String),
      (NewAuthMessage now k v).map Message.Timestamp = some now)
  ∧ (∀ (now : Nat) (a b : String),
      (NewAuthAckMessage now a b).map Message.Timestamp = some now)
  ∧ (∀ (now : Nat) (e : String),
      (NewAuthErrorMessage now e).map Message.Timestamp = some now)
  ∧ (∀ (now : Nat) (a b c : String) (d e : Int),
      (NewTaskMessage now a b c d e).map Message.Timestamp = some now)
  ∧ (∀ (now : Nat) (a : String),
      (NewTaskCancelMessage now a).map Message.Timestamp = some now)
  ∧ (∀ (now : Nat) (a b : String) (c : Int) (d : String),
      (NewHeartbeatMessage now a b c d).map Message.Timestamp = some now)
  ∧ (∀ now : Nat, (NewPingMessage now).map Message.Timestamp = some now)
  ∧ (∀ now : Nat, (NewPongMessage now).map Message.Timestamp = some now)
  ∧ (∀ (now : Nat) (a b : String),
      (NewErrorMessage now a b).map Message.Timestamp = some now)
  ∧ (∀ (clock : Nat → Nat),
      (∀ i, clock i ≠ 0) →
      (∀ i j, i ≤ j → clock i ≤ clock j) →
      ∀ (i j : Nat) (tagA tagB : String) (pA pB : Option PayloadValue) (mA mB : Message),
        NewMessage (clock i) tagA pA = Except.ok mA →
        NewMessage (clock j) tagB pB = Except.ok mB →
        mA.Timestamp ≠ 0 ∧ (i ≤ j → mA.Timestamp ≤ mB.Timestamp)) := by
  refine ⟨?_, ?_, ?_, ?_, ?_, ?_, ?_, ?_, ?_, ?_⟩
  case _ => intros; rfl
  case _ => intros; rfl
  case _ => intros; rfl
  case _ => intros; rfl
  case _ => intros; rfl
  case _ => intros; rfl
  case _ => intros; rfl
  case _ => intros; rfl
  case _ => intros; rfl
  case _ =>
    intro clock hzero hmono i j tagA tagB pA pB mA mB hA hB
    constructor
    · rw [NewMessage_timestamp _ tagA pA mA hA]
      exact hzero i
    · intro hij
      rw [NewMessage_timestamp _ tagA pA mA hA, NewMessage_timestamp _ tagB pB mB hB]
      exact hmono i j hij

/-- Witness for C9 at a concrete monotone positive clock, two successive
construction indices and two concrete ping envelopes. -/
theorem constructed_timestamps_witness :
    ({ Type_ := "ping", Payload := RawPayload.absent, Timestamp := 1 } : Message).Timestamp ≠ 0
  ∧ ((0 : Nat) ≤ 1 →
      ({ Type_ := "ping", Payload := RawPayload.absent, Timestamp := 1 } : Message).Timestamp
        ≤ ({ Type_ := "pong", Payload := RawPayload.absent, Timestamp := 2 } : Message).Timestamp) :=
  constructed_timestamps_nonzero_monotone.2.2.2.2.2.2.2.2.2
    (fun i => i + 1) (fun i => Nat.succ_ne_zero i) (fun _ _ h => Nat.succ_le_succ h)
    0 1 "ping" "pong" none none _ _ rfl rfl

/-- A manually built envelope, as any caller of the package may build one. -/
def envelope (ty : String) (pl : RawPayload) (ts : Nat) : Message :=
  { Type_ := ty, Payload := pl, Timestamp := ts }

/-- The envelope of the malformed-payload scenario whose payload object decodes
monitor_id successfully and then mismatches on interval. -/
def taskMismatchMsg : Message :=
  envelope "task"
    (RawPayload.json (Json.obj
      [("monitor_id", Json.str "m1"), ("interval", Json.str "thirty")]))
    0

/-- C2 counterexample: an envelope whose payload cannot be decoded as a
TaskPayload for which ParsePayload nevertheless populates the destination with
partial data: the error is reported, yet MonitorID has been filled in from the
wire although the fresh destination had it empty. -/
theorem parse_mismatch_partially_populates :
    (taskMismatchMsg.ParsePayload TaskPayload.unmarshal TaskPayload.zero).2.isSome = true
  ∧ (taskMismatchMsg.ParsePayload TaskPayload.unmarshal TaskPayload.zero).1.MonitorID = "m1"
  ∧ TaskPayload.zero.MonitorID = ""
  ∧ (taskMismatchMsg.ParsePayload TaskPayload.unmarshal TaskPayload.zero).1
      ≠ TaskPayload.zero := by
  refine ⟨rfl, rfl, rfl, ?_⟩
  decide

/-- C2 (amended): extracting a TaskPayload from an envelope whose payload
bytes are not valid JSON (the bytes: not json) reports a syntax error and
leaves the destination untouched; extracting from the type-mismatch object
whose single field interval holds the string thirty reports a type error and
leaves the destination untouched; but when a type-mismatched field follows a
decodable one, the decodable field is populated before the error is reported. -/
theorem parse_malformed_task_payload_rejected :
    (∀ (bytes ty : String) (ts : Nat) (dest : TaskPayload),
      (envelope ty (RawPayload.invalid bytes) ts).ParsePayload TaskPayload.unmarshal dest
        = (dest, some (JsonError.syntaxError bytes)))
  ∧ ((envelope "task" (RawPayload.invalid "not json") 0).ParsePayload
        TaskPayload.unmarshal TaskPayload.zero
      = (TaskPayload.zero, some (JsonError.syntaxError "not json")))
  ∧ ((envelope "task" (RawPayload.json (Json.obj [("interval", Json.str "thirty")])) 0).ParsePayload
        TaskPayload.unmarshal TaskPayload.zero
      = (TaskPayload.zero, some (JsonError.typeMismatch "int")))
  ∧ (taskMismatchMsg.ParsePayload TaskPayload.unmarshal TaskPayload.zero
      = ({ TaskPayload.zero with MonitorID := "m1" }, some (JsonError.typeMismatch "int"))) := by
  refine ⟨fun bytes ty ts dest => rfl, rfl, ?_, ?_⟩ <;> decide

/-- C4 counterexample: an envelope whose payload is present but an empty byte
string is an envelope with an empty payload, yet ParsePayload reports a
deserialization error on it instead of succeeding, because the source only
short-circuits on a nil payload. -/
theorem parse_empty_nonnil_payload_errors :
    ((envelope "ping" (RawPayload.invalid "") 0).ParsePayload
        TaskPayload.unmarshal TaskPayload.zero).2
      = some (JsonError.syntaxError "") := rfl

/-- C4 (amended): for every envelope whose payload is absent (a nil raw
payload) — in particular those produced by NewPingMessage and NewPongMessage —
ParsePayload into a destination of any payload type returns no error and
leaves the destination unmodified; a present-but-empty payload byte string
instead yields a decode error. -/
theorem parse_absent_payload_noop :
    (∀ (ty : String) (ts : Nat) (dest : AuthPayload),
      (envelope ty RawPayload.absent ts).ParsePayload AuthPayload.unmarshal dest = (dest, none))
  ∧ (∀ (ty : String) (ts : Nat) (dest : AuthAckPayload),
      (envelope ty RawPayload.absent ts).ParsePayload AuthAckPayload.unmarshal dest
        = (dest, none))
  ∧ (∀ (ty : String) (ts : Nat) (dest : AuthErrorPayload),
      (envelope ty RawPayload.absent ts).ParsePayload AuthErrorPayload.unmarshal dest
        = (dest, none))
  ∧ (∀ (ty : String) (ts : Nat) (dest : TaskPayload),
      (envelope ty RawPayload.absent ts).ParsePayload TaskPayload.unmarshal dest = (dest, none))
  ∧ (∀ (ty : String) (ts : Nat) (dest : TaskCancelPayload),
      (envelope ty RawPayload.absent ts).ParsePayload TaskCancelPayload.unmarshal dest
        = (dest, none))
  ∧ (∀ (ty : String) (ts : Nat) (dest : HeartbeatPayload),
      (envelope ty RawPayload.absent ts).ParsePayload HeartbeatPayload.unmarshal dest
        = (dest, none))
  ∧ (∀ (ty : String) (ts : Nat) (dest : ErrorPayload),
      (envelope ty RawPayload.absent ts).ParsePayload ErrorPayload.unmarshal dest = (dest, none))
  ∧ (∀ now : Nat, (NewPingMessage now).map Message.Payload = some RawPayload.absent)
  ∧ (∀ now : Nat, (NewPongMessage now).map Message.Payload = some RawPayload.absent)
  ∧ (∀ (ty : String) (ts : Nat) (dest : TaskPayload),
      ((envelope ty (RawPayload.invalid "") ts).ParsePayload
          TaskPayload.unmarshal dest).2.isSome = true) := by
  refine ⟨?_, ?_, ?_, ?_, ?_, ?_, ?_, ?_, ?_, ?_⟩ <;> intros <;> rfl

theorem foldFields_filter (applyF : α → String → Json → α × Option JsonError)
    (p : String → Bool)
    (hp : ∀ d k v, p k = false → applyF d k v = (d, none)) :
    ∀ (l : List (String × Json)) (d : α) (e : Option JsonError),
      foldFields applyF (d, e) l = foldFields applyF (d, e) (l.filter (fun kv => p kv.1)) := by
  intro l
  induction l with
  | nil => intro d e; rfl
  | cons kv rest ih =>
    intro d e
    obtain ⟨k, v⟩ := kv
    by_cases hk : p k = true
    · simp only [List.filter_cons, hk, foldFields]
      exact ih _ _
    · have hk0 : p k = false := by simpa using hk
      simp only [List.filter_cons, hk0, foldFields, hp d k v hk0, firstErr_none]
      exact ih _ _

theorem foldFields_proj (applyF : α → String → Json → α × Option JsonError)
    (g : α → β) :
    ∀ (l : List (String × Json)) (d : α) (e : Option JsonError),
      (∀ d2 k v, (k, v) ∈ l → g (applyF d2 k v).1 = g d2) →
      g (foldFields applyF (d, e) l).1 = g d := by
  intro l
  induction l with
  | nil => intro d e _; rfl
  | cons kv rest ih =>
    intro d e h
    obtain ⟨k, v⟩ := kv
    simp only [foldFields]
    rw [ih _ _ (fun d2 k2 v2 hm => h d2 k2 v2 (List.mem_cons_of_mem _ hm))]
    exact h d k v (List.mem_cons_self _ _)

/-- The wire keys that correspond to a field of AuthPayload. -/
def authKnownKey (k : String) : Bool :=
  keyMatches k "api_key" ||
    keyMatches k "version"

/-- A key matching no field of AuthPayload leaves the destination unchanged and
reports no error. -/
theorem auth_applyField_unknown (d : AuthPayload) (k : String) (v : Json)
    (h : authKnownKey k = false) : AuthPayload.applyField d k v = (d, none) := by
  simp only [authKnownKey, Bool.or_eq_false_iff] at h
  simp [AuthPayload.applyField, h.1, h.2]

/-- A key not matching the api_key wire key leaves the APIKey field unchanged. -/
theorem auth_keeps_APIKey (d : AuthPayload) (k : String) (v : Json)
    (h : keyMatches k "api_key" = false) :
    ((AuthPayload.applyField d k v).1).APIKey = d.APIKey := by
  simp only [AuthPayload.applyField]
  split_ifs <;> simp_all

/-- A key not matching the version wire key leaves the Version field unchanged. -/
theorem auth_keeps_Version (d : AuthPayload) (k : String) (v : Json)
    (h : keyMatches k "version" = false) :
    ((AuthPayload.applyField d k v).1).Version = d.Version := by
  simp only [AuthPayload.applyField]
  split_ifs <;> simp_all

/-- The wire keys that correspond to a field of AuthAckPayload. -/
def authAckKnownKey (k : String) : Bool :=
  keyMatches k "agent_id" ||
    keyMatches k "agent_name"

/-- A key matching no field of AuthAckPayload leaves the destination unchanged and
reports no error. -/
theorem authAck_applyField_unknown (d : AuthAckPayload) (k : String) (v : Json)
    (h : authAckKnownKey k = false) : AuthAckPayload.applyField d k v = (d, none) := by
  simp only [authAckKnownKey, Bool.or_eq_false_iff] at h
  simp [AuthAckPayload.applyField, h.1, h.2]

/-- A key not matching the agent_id wire key leaves the AgentID field unchanged. -/
theorem authAck_keeps_AgentID (d : AuthAckPayload) (k : String) (v : Json)
    (h : keyMatches k "agent_id" = false) :
    ((AuthAckPayload.applyField d k v).1).AgentID = d.AgentID := by
  simp only [AuthAckPayload.applyField]
  split_ifs <;> simp_all

/-- A key not matching the agent_name wire key leaves the AgentName field unchanged. -/
theorem authAck_keeps_AgentName (d : AuthAckPayload) (k : String) (v : Json)
    (h : keyMatches k "agent_name" = false) :
    ((AuthAckPayload.applyField d k v).1).AgentName = d.AgentName := by
  simp only [AuthAckPayload.applyField]
  split_ifs <;> simp_all

/-- The wire keys that correspond to a field of AuthErrorPayload. -/
def authErrorKnownKey (k : String) : Bool :=
  keyMatches k "error"

/-- A key matching no field of AuthErrorPayload leaves the destination unchanged and
reports no error. -/
theorem authError_applyField_unknown (d : AuthErrorPayload) (k : String) (v : Json)
    (h : authErrorKnownKey k = false) : AuthErrorPayload.applyField d k v = (d, none) := by
  simp only [authErrorKnownKey] at h
  simp [AuthErrorPayload.applyField, h]

/-- A key not matching the error wire key leaves the Error field unchanged. -/
theorem authError_keeps_Error (d : AuthErrorPayload) (k : String) (v : Json)
    (h : keyMatches k "error" = false) :
    ((AuthErrorPayload.applyField d k v).1).Error = d.Error := by
  simp only [AuthErrorPayload.applyField]
  split_ifs <;> simp_all

/-- The wire keys that correspond to a field of TaskPayload. -/
def taskKnownKey (k : String) : Bool :=
  keyMatches k "monitor_id" ||
    keyMatches k "type" ||
    keyMatches k "target" ||
    keyMatches k "interval" ||
    keyMatches k "timeout"

/-- A key matching no field of TaskPayload leaves the destination unchanged and
reports no error. -/
theorem task_applyField_unknown (d : TaskPayload) (k : String) (v : Json)
    (h : taskKnownKey k = false) : TaskPayload.applyField d k v = (d, none) := by
  simp only [taskKnownKey, Bool.or_eq_false_iff] at h
  simp [TaskPayload.applyField, h.1, h.2]

/-- A key not matching the monitor_id wire key leaves the MonitorID field unchanged. -/
theorem task_keeps_MonitorID (d : TaskPayload) (k : String) (v : Json)
    (h : keyMatches k "monitor_id" = false) :
    ((TaskPayload.applyField d k v).1).MonitorID = d.MonitorID := by
  simp only [TaskPayload.applyField]
  split_ifs <;> simp_all

/-- A key not matching the type wire key leaves the Type_ field unchanged. -/
theorem task_keeps_Type_ (d : TaskPayload) (k : String) (v : Json)
    (h : keyMatches k "type" = false) :
    ((TaskPayload.applyField d k v).1).Type_ = d.Type_ := by
  simp only [TaskPayload.applyField]
  split_ifs <;> simp_all

/-- A key not matching the target wire key leaves the Target field unchanged. -/
theorem task_keeps_Target (d : TaskPayload) (k : String) (v : Json)
    (h : keyMatches k "target" = false) :
    ((TaskPayload.applyField d k v).1).Target = d.Target := by
  simp only [TaskPayload.applyField]
  split_ifs <;> simp_all

/-- A key not matching the interval wire key leaves the Interval field unchanged. -/
theorem task_keeps_Interval (d : TaskPayload) (k : String) (v : Json)
    (h : keyMatches k "interval" = false) :
    ((TaskPayload.applyField d k v).1).Interval = d.Interval := by
  simp only [TaskPayload.applyField]
  split_ifs <;> simp_all

/-- A key not matching the timeout wire key leaves the Timeout field unchanged. -/
theorem task_keeps_Timeout (d : TaskPayload) (k : String) (v : Json)
    (h : keyMatches k "timeout" = false) :
    ((TaskPayload.applyField d k v).1).Timeout = d.Timeout := by
  simp only [TaskPayload.applyField]
  split_ifs <;> simp_all

/-- The wire keys that correspond to a field of HeartbeatPayload. -/
def heartbeatKnownKey (k : String) : Bool :=
  keyMatches k "monitor_id" ||
    keyMatches k "status" ||
    keyMatches k "latency_ms" ||
    keyMatches k "error_message" ||
    keyMatches k "cert_expiry_days" ||
    keyMatches k "cert_issuer"

/-- A key matching no field of HeartbeatPayload leaves the destination unchanged and
reports no error. -/
theorem heartbeat_applyField_unknown (d : HeartbeatPayload) (k : String) (v : Json)
    (h : heartbeatKnownKey k = false) : HeartbeatPayload.applyField d k v = (d, none) := by
  simp only [heartbeatKnownKey, Bool.or_eq_false_iff] at h
  simp [HeartbeatPayload.applyField, h.1, h.2]

/-- A key not matching the monitor_id wire key leaves the MonitorID field unchanged. -/
theorem heartbeat_keeps_MonitorID (d : HeartbeatPayload) (k : String) (v : Json)
    (h : keyMatches k "monitor_id" = false) :
    ((HeartbeatPayload.applyField d k v).1).MonitorID = d.MonitorID := by
  simp only [HeartbeatPayload.applyField]
  split_ifs <;> simp_all

/-- A key not matching the status wire key leaves the Status field unchanged. -/
theorem heartbeat_keeps_Status (d : HeartbeatPayload) (k : String) (v : Json)
    (h : keyMatches k "status" = false) :
    ((HeartbeatPayload.applyField d k v).1).Status = d.Status := by
  simp only [HeartbeatPayload.applyField]
  split_ifs <;> simp_all

/-- A key not matching the latency_ms wire key leaves the LatencyMs field unchanged. -/
theorem heartbeat_keeps_LatencyMs (d : HeartbeatPayload) (k : String) (v : Json)
    (h : keyMatches k "latency_ms" = false) :
    ((HeartbeatPayload.applyField d k v).1).LatencyMs = d.LatencyMs := by
  simp only [HeartbeatPayload.applyField]
  split_ifs <;> simp_all

/-- A key not matching the error_message wire key leaves the ErrorMessage field unchanged. -/
theorem heartbeat_keeps_ErrorMessage (d : HeartbeatPayload) (k : String) (v : Json)
    (h : keyMatches k "error_message" = false) :
    ((HeartbeatPayload.applyField d k v).1).ErrorMessage = d.ErrorMessage := by
  simp only [HeartbeatPayload.applyField]
  split_ifs <;> simp_all

/-- A key not matching the cert_expiry_days wire key leaves the CertExpiryDays field unchanged. -/
theorem heartbeat_keeps_CertExpiryDays (d : HeartbeatPayload) (k : String) (v : Json)
    (h : keyMatches k "cert_expiry_days" = false) :
    ((HeartbeatPayload.applyField d k v).1).CertExpiryDays = d.CertExpiryDays := by
  simp only [HeartbeatPayload.applyField]
  split_ifs <;> simp_all

/-- A key not matching the cert_issuer wire key leaves the CertIssuer field unchanged. -/
theorem heartbeat_keeps_CertIssuer (d : HeartbeatPayload) (k : String) (v : Json)
    (h : keyMatches k "cert_issuer" = false) :
    ((HeartbeatPayload.applyField d k v).1).CertIssuer = d.CertIssuer := by
  simp only [HeartbeatPayload.applyField]
  split_ifs <;> simp_all

/-- The wire keys that correspond to a field of TaskCancelPayload. -/
def taskCancelKnownKey (k : String) : Bool :=
  keyMatches k "monitor_id"

/-- A key matching no field of TaskCancelPayload leaves the destination unchanged and
reports no error. -/
theorem taskCancel_applyField_unknown (d : TaskCancelPayload) (k : String) (v : Json)
    (h : taskCancelKnownKey k = false) : TaskCancelPayload.applyField d k v = (d, none) := by
  simp only [taskCancelKnownKey] at h
  simp [TaskCancelPayload.applyField, h]

/-- A key not matching the monitor_id wire key leaves the MonitorID field unchanged. -/
theorem taskCancel_keeps_MonitorID (d : TaskCancelPayload) (k : String) (v : Json)
    (h : keyMatches k "monitor_id" = false) :
    ((TaskCancelPayload.applyField d k v).1).MonitorID = d.MonitorID := by
  simp only [TaskCancelPayload.applyField]
  split_ifs <;> simp_all

/-- The wire keys that correspond to a field of ErrorPayload. -/
def errorKnownKey (k : String) : Bool :=
  keyMatches k "code" ||
    keyMatches k "message"

/-- A key matching no field of ErrorPayload leaves the destination unchanged and
reports no error. -/
theorem errPayload_applyField_unknown (d : ErrorPayload) (k : String) (v : Json)
    (h : errorKnownKey k = false) : ErrorPayload.applyField d k v = (d, none) := by
  simp only [errorKnownKey, Bool.or_eq_false_iff] at h
  simp [ErrorPayload.applyField, h.1, h.2]

/-- A key not matching the code wire key leaves the Code field unchanged. -/
theorem errPayload_keeps_Code (d : ErrorPayload) (k : String) (v : Json)
    (h : keyMatches k "code" = false) :
    ((ErrorPayload.applyField d k v).1).Code = d.Code := by
  simp only [ErrorPayload.applyField]
  split_ifs <;> simp_all

/-- A key not matching the message wire key leaves the Message field unchanged. -/
theorem errPayload_keeps_Message (d : ErrorPayload) (k : String) (v : Json)
    (h : keyMatches k "message" = false) :
    ((ErrorPayload.applyField d k v).1).Message = d.Message := by
  simp only [ErrorPayload.applyField]
  split_ifs <;> simp_all

/-- C7: for every envelope with a decodable non-empty payload and every
destination payload type, ParsePayload ignores wire fields that match no field
of the destination type (decoding an object is decoding its restriction to the
known wire keys), and every destination field whose wire key is absent from
the wire data is left at its zero value when extraction starts from the fresh
zero destination. -/
theorem parse_ignores_unknown_and_absent_defaults :
    (∀ (ty : String) (ts : Nat) (dest : AuthPayload) (l : List (String × Json)),
      (envelope ty (RawPayload.json (Json.obj l)) ts).ParsePayload AuthPayload.unmarshal dest
        = (envelope ty (RawPayload.json (Json.obj (l.filter (fun kv => authKnownKey kv.1)))) ts).ParsePayload
            AuthPayload.unmarshal dest)
  ∧ (∀ (ty : String) (ts : Nat) (dest : AuthAckPayload) (l : List (String × Json)),
      (envelope ty (RawPayload.json (Json.obj l)) ts).ParsePayload AuthAckPayload.unmarshal dest
        = (envelope ty (RawPayload.json (Json.obj (l.filter (fun kv => authAckKnownKey kv.1)))) ts).ParsePayload
            AuthAckPayload.unmarshal dest)
  ∧ (∀ (ty : String) (ts : Nat) (dest : AuthErrorPayload) (l : List (String × Json)),
      (envelope ty (RawPayload.json (Json.obj l)) ts).ParsePayload AuthErrorPayload.unmarshal dest
        = (envelope ty (RawPayload.json (Json.obj (l.filter (fun kv => authErrorKnownKey kv.1)))) ts).ParsePayload
            AuthErrorPayload.unmarshal dest)
  ∧ (∀ (ty : String) (ts : Nat) (dest : TaskPayload) (l : List (String × Json)),
      (envelope ty (RawPayload.json (Json.obj l)) ts).ParsePayload TaskPayload.unmarshal dest
        = (envelope ty (RawPayload.json (Json.obj (l.filter (fun kv => taskKnownKey kv.1)))) ts).ParsePayload
            TaskPayload.unmarshal dest)
  ∧ (∀ (ty : String) (ts : Nat) (dest : HeartbeatPayload) (l : List (String × Json)),
      (envelope ty (RawPayload.json (Json.obj l)) ts).ParsePayload HeartbeatPayload.unmarshal dest
        = (envelope ty (RawPayload.json (Json.obj (l.filter (fun kv => heartbeatKnownKey kv.1)))) ts).ParsePayload
            HeartbeatPayload.unmarshal dest)
  ∧ (∀ (ty : String) (ts : Nat) (dest : TaskCancelPayload) (l : List (String × Json)),
      (envelope ty (RawPayload.json (Json.obj l)) ts).ParsePayload TaskCancelPayload.unmarshal dest
        = (envelope ty (RawPayload.json (Json.obj (l.filter (fun kv => taskCancelKnownKey kv.1)))) ts).ParsePayload
            TaskCancelPayload.unmarshal dest)
  ∧ (∀ (ty : String) (ts : Nat) (dest : ErrorPayload) (l : List (String × Json)),
      (envelope ty (RawPayload.json (Json.obj l)) ts).ParsePayload ErrorPayload.unmarshal dest
        = (envelope ty (RawPayload.json (Json.obj (l.filter (fun kv => errorKnownKey kv.1)))) ts).ParsePayload
            ErrorPayload.unmarshal dest)
  ∧ (∀ (ty : String) (ts : Nat) (l : List (String × Json)),
      (∀ kv ∈ l, keyMatches kv.1 "api_key" = false) →
      (((envelope ty (RawPayload.json (Json.obj l)) ts).ParsePayload
          AuthPayload.unmarshal AuthPayload.zero).1).APIKey = "")
  ∧ (∀ (ty : String) (ts : Nat) (l : List (String × Json)),
      (∀ kv ∈ l, keyMatches kv.1 "version" = false) →
      (((envelope ty (RawPayload.json (Json.obj l)) ts).ParsePayload
          AuthPayload.unmarshal AuthPayload.zero).1).Version = "")
  ∧ (∀ (ty : String) (ts : Nat) (l : List (String × Json)),
      (∀ kv ∈ l, keyMatches kv.1 "agent_id" = false) →
      (((envelope ty (RawPayload.json (Json.obj l)) ts).ParsePayload
          AuthAckPayload.unmarshal AuthAckPayload.zero).1).AgentID = "")
  ∧ (∀ (ty : String) (ts : Nat) (l : List (String × Json)),
      (∀ kv ∈ l, keyMatches kv.1 "agent_name" = false) →
      (((envelope ty (RawPayload.json (Json.obj l)) ts).ParsePayload
          AuthAckPayload.unmarshal AuthAckPayload.zero).1).AgentName = "")
  ∧ (∀ (ty : String) (ts : Nat) (l : List (String × Json)),
      (∀ kv ∈ l, keyMatches kv.1 "error" = false) →
      (((envelope ty (RawPayload.json (Json.obj l)) ts).ParsePayload
          AuthErrorPayload.unmarshal AuthErrorPayload.zero).1).Error = "")
  ∧ (∀ (ty : String) (ts : Nat) (l : List (String × Json)),
      (∀ kv ∈ l, keyMatches kv.1 "monitor_id" = false) →
      (((envelope ty (RawPayload.json (Json.obj l)) ts).ParsePayload
          TaskPayload.unmarshal TaskPayload.zero).1).MonitorID = "")
  ∧ (∀ (ty : String) (ts : Nat) (l : List (String × Json)),
      (∀ kv ∈ l, keyMatches kv.1 "type" = false) →
      (((envelope ty (RawPayload.json (Json.obj l)) ts).ParsePayload
          TaskPayload.unmarshal TaskPayload.zero).1).Type_ = "")
  ∧ (∀ (ty : String) (ts : Nat) (l : List (String × Json)),
      (∀ kv ∈ l, keyMatches kv.1 "target" = false) →
      (((envelope ty (RawPayload.json (Json.obj l)) ts).ParsePayload
          TaskPayload.unmarshal TaskPayload.zero).1).Target = "")
  ∧ (∀ (ty : String) (ts : Nat) (l : List (String × Json)),
      (∀ kv ∈ l, keyMatches kv.1 "interval" = false) →
      (((envelope ty (RawPayload.json (Json.obj l)) ts).ParsePayload
          TaskPayload.unmarshal TaskPayload.zero).1).Interval = 0)
  ∧ (∀ (ty : String) (ts : Nat) (l : List (String × Json)),
      (∀ kv ∈ l, keyMatches kv.1 "timeout" = false) →
      (((envelope ty (RawPayload.json (Json.obj l)) ts).ParsePayload
          TaskPayload.unmarshal TaskPayload.zero).1).Timeout = 0)
  ∧ (∀ (ty : String) (ts : Nat) (l : List (String × Json)),
      (∀ kv ∈ l, keyMatches kv.1 "monitor_id" = false) →
      (((envelope ty (RawPayload.json (Json.obj l)) ts).ParsePayload
          HeartbeatPayload.unmarshal HeartbeatPayload.zero).1).MonitorID = "")
  ∧ (∀ (ty : String) (ts : Nat) (l : List (String × Json)),
      (∀ kv ∈ l, keyMatches kv.1 "status" = false) →
      (((envelope ty (RawPayload.json (Json.obj l)) ts).ParsePayload
          HeartbeatPayload.unmarshal HeartbeatPayload.zero).1).Status = "")
  ∧ (∀ (ty : String) (ts : Nat) (l : List (String × Json)),
      (∀ kv ∈ l, keyMatches kv.1 "latency_ms" = false) →
      (((envelope ty (RawPayload.json (Json.obj l)) ts).ParsePayload
          HeartbeatPayload.unmarshal HeartbeatPayload.zero).1).LatencyMs = 0)
  ∧ (∀ (ty : String) (ts : Nat) (l : List (String × Json)),
      (∀ kv ∈ l, keyMatches kv.1 "error_message" = false) →
      (((envelope ty (RawPayload.json (Json.obj l)) ts).ParsePayload
          HeartbeatPayload.unmarshal HeartbeatPayload.zero).1).ErrorMessage = "")
  ∧ (∀ (ty : String) (ts : Nat) (l : List (String × Json)),
      (∀ kv ∈ l, keyMatches kv.1 "cert_expiry_days" = false) →
      (((envelope ty (RawPayload.json (Json.obj l)) ts).ParsePayload
          HeartbeatPayload.unmarshal HeartbeatPayload.zero).1).CertExpiryDays = none)
  ∧ (∀ (ty : String) (ts : Nat) (l : List (String × Json)),
      (∀ kv ∈ l, keyMatches kv.1 "cert_issuer" = false) →
      (((envelope ty (RawPayload.json (Json.obj l)) ts).ParsePayload
          HeartbeatPayload.unmarshal HeartbeatPayload.zero).1).CertIssuer = "")
  ∧ (∀ (ty : String) (ts : Nat) (l : List (String × Json)),
      (∀ kv ∈ l, keyMatches kv.1 "monitor_id" = false) →
      (((envelope ty (RawPayload.json (Json.obj l)) ts).ParsePayload
          TaskCancelPayload.unmarshal TaskCancelPayload.zero).1).MonitorID = "")
  ∧ (∀ (ty : String) (ts : Nat) (l : List (String × Json)),
      (∀ kv ∈ l, keyMatches kv.1 "code" = false) →
      (((envelope ty (RawPayload.json (Json.obj l)) ts).ParsePayload
          ErrorPayload.unmarshal ErrorPayload.zero).1).Code = "")
  ∧ (∀ (ty : String) (ts : Nat) (l : List (String × Json)),
      (∀ kv ∈ l, keyMatches kv.1 "message" = false) →
      (((envelope ty (RawPayload.json (Json.obj l)) ts).ParsePayload
          ErrorPayload.unmarshal ErrorPayload.zero).1).Message = "") := by
  exact ⟨fun ty ts dest l => foldFields_filter AuthPayload.applyField authKnownKey auth_applyField_unknown l dest none,
    fun ty ts dest l => foldFields_filter AuthAckPayload.applyField authAckKnownKey authAck_applyField_unknown l dest none,
    fun ty ts dest l => foldFields_filter AuthErrorPayload.applyField authErrorKnownKey authError_applyField_unknown l dest none,
    fun ty ts dest l => foldFields_filter TaskPayload.applyField taskKnownKey task_applyField_unknown l dest none,
    fun ty ts dest l => foldFields_filter HeartbeatPayload.applyField heartbeatKnownKey heartbeat_applyField_unknown l dest none,
    fun ty ts dest l => foldFields_filter TaskCancelPayload.applyField taskCancelKnownKey taskCancel_applyField_unknown l dest none,
    fun ty ts dest l => foldFields_filter ErrorPayload.applyField errorKnownKey errPayload_applyField_unknown l dest none,
    fun ty ts l h => foldFields_proj AuthPayload.applyField (fun d => d.APIKey) l AuthPayload.zero none (fun d2 k v hm => auth_keeps_APIKey d2 k v (h (k, v) hm)),
    fun ty ts l h => foldFields_proj AuthPayload.applyField (fun d => d.Version) l AuthPayload.zero none (fun d2 k v hm => auth_keeps_Version d2 k v (h (k, v) hm)),
    fun ty ts l h => foldFields_proj AuthAckPayload.applyField (fun d => d.AgentID) l AuthAckPayload.zero none (fun d2 k v hm => authAck_keeps_AgentID d2 k v (h (k, v) hm)),
    fun ty ts l h => foldFields_proj AuthAckPayload.applyField (fun d => d.AgentName) l AuthAckPayload.zero none (fun d2 k v hm => authAck_keeps_AgentName d2 k v (h (k, v) hm)),
    fun ty ts l h => foldFields_proj AuthErrorPayload.applyField (fun d => d.Error) l AuthErrorPayload.zero none (fun d2 k v hm => authError_keeps_Error d2 k v (h (k, v) hm)),
    fun ty ts l h => foldFields_proj TaskPayload.applyField (fun d => d.MonitorID) l TaskPayload.zero none (fun d2 k v hm => task_keeps_MonitorID d2 k v (h (k, v) hm)),
    fun ty ts l h => foldFields_proj TaskPayload.applyField (fun d => d.Type_) l TaskPayload.zero none (fun d2 k v hm => task_keeps_Type_ d2 k v (h (k, v) hm)),
    fun ty ts l h => foldFields_proj TaskPayload.applyField (fun d => d.Target) l TaskPayload.zero none (fun d2 k v hm => task_keeps_Target d2 k v (h (k, v) hm)),
    fun ty ts l h => foldFields_proj TaskPayload.applyField (fun d => d.Interval) l TaskPayload.zero none (fun d2 k v hm => task_keeps_Interval d2 k v (h (k, v) hm)),
    fun ty ts l h => foldFields_proj TaskPayload.applyField (fun d => d.Timeout) l TaskPayload.zero none (fun d2 k v hm => task_keeps_Timeout d2 k v (h (k, v) hm)),
    fun ty ts l h => foldFields_proj HeartbeatPayload.applyField (fun d => d.MonitorID) l HeartbeatPayload.zero none (fun d2 k v hm => heartbeat_keeps_MonitorID d2 k v (h (k, v) hm)),
    fun ty ts l h => foldFields_proj HeartbeatPayload.applyField (fun d => d.Status) l HeartbeatPayload.zero none (fun d2 k v hm => heartbeat_keeps_Status d2 k v (h (k, v) hm)),
    fun ty ts l h => foldFields_proj HeartbeatPayload.applyField (fun d => d.LatencyMs) l HeartbeatPayload.zero none (fun d2 k v hm => heartbeat_keeps_LatencyMs d2 k v (h (k, v) hm)),
    fun ty ts l h => foldFields_proj HeartbeatPayload.applyField (fun d => d.ErrorMessage) l HeartbeatPayload.zero none (fun d2 k v hm => heartbeat_keeps_ErrorMessage d2 k v (h (k, v) hm)),
    fun ty ts l h => foldFields_proj HeartbeatPayload.applyField (fun d => d.CertExpiryDays) l HeartbeatPayload.zero none (fun d2 k v hm => heartbeat_keeps_CertExpiryDays d2 k v (h (k, v) hm)),
    fun ty ts l h => foldFields_proj HeartbeatPayload.applyField (fun d => d.CertIssuer) l HeartbeatPayload.zero none (fun d2 k v hm => heartbeat_keeps_CertIssuer d2 k v (h (k, v) hm)),
    fun ty ts l h => foldFields_proj TaskCancelPayload.applyField (fun d => d.MonitorID) l TaskCancelPayload.zero none (fun d2 k v hm => taskCancel_keeps_MonitorID d2 k v (h (k, v) hm)),
    fun ty ts l h => foldFields_proj ErrorPayload.applyField (fun d => d.Code) l ErrorPayload.zero none (fun d2 k v hm => errPayload_keeps_Code d2 k v (h (k, v) hm)),
    fun ty ts l h => foldFields_proj ErrorPayload.applyField (fun d => d.Message) l ErrorPayload.zero none (fun d2 k v hm => errPayload_keeps_Message d2 k v (h (k, v) hm))⟩

/-- Witness for C7: a task envelope whose payload holds monitor_id and an
unknown extra key but no interval key extracts to a destination whose
Interval is still zero. -/
theorem parse_unknown_absent_defaults_witness :
    (((envelope "task"
        (RawPayload.json (Json.obj [("monitor_id", Json.str "m"), ("extra", Json.bool true)]))
        0).ParsePayload TaskPayload.unmarshal TaskPayload.zero).1).Interval = 0 :=
  parse_ignores_unknown_and_absent_defaults.2.2.2.2.2.2.2.2.2.2.2.2.2.2.2.1
    "task" 0 [("monitor_id", Json.str "m"), ("extra", Json.bool true)]
    (by intro kv hm; fin_cases hm <;> decide)
